import Mathlib

/-!
Shallow embedding of the ALFAAI backend (src/backend/server.py): the message
data model, the extension deny-list check, message ingestion (`create_message`),
the expiration sweep body (`cleanup_expired_messages`), message retrieval
(`get_messages`), and the connection registry (`ConnectionManager`).
Timestamps are modelled as integers (seconds); MongoDB collections as lists;
the uploads directory as a list of stored file paths.
-/

namespace Chat

/-- A chat message record, mirroring the `Message` pydantic model
(server.py lines 45-54). `id` stands for the generated uuid string. -/
structure Message where
  id : Nat
  content : String
  username : String
  timestamp : Int
  ttl_seconds : Option Int
  expires_at : Option Int
  file_path : Option String
  file_name : Option String
  file_size : Option Nat
  deriving DecidableEq

/-- Server-side mutable state: the `messages` Mongo collection, the set of
files on disk under `uploads/`, and a counter modelling fresh uuid generation. -/
structure ServerState where
  messages : List Message
  files : List String
  nextId : Nat
  deriving DecidableEq

/-- Wire events broadcast to connected clients. -/
inductive Event where
  | new_message (m : Message)
  | cleanup (deleted_count : Nat)
  | auto_clear
  deriving DecidableEq

/-- Observable actions performed by `create_message`, in program order:
writing the upload to disk, inserting the message document, calling the
Discord webhook (with its success flag), and broadcasting an event. -/
inductive Action where
  | writeFile (path : String)
  | persistMessage (m : Message)
  | relay (ok : Bool)
  | broadcast (ev : Event)
  deriving DecidableEq

/-- Index of the last occurrence of a dot in a list of characters
(Python's `str.rfind` restricted to the dot character). -/
def lastDotIdx : List Char → Option Nat
  | [] => none
  | c :: rest =>
    match lastDotIdx rest with
    | some i => some (i + 1)
    | none => if c = '.' then some 0 else none

/-- Final path component of a character sequence: everything after the last
slash (Python `pathlib.Path(p).name` for the filenames at hand). -/
def afterLastSlash (cs : List Char) : List Char :=
  cs.foldl (fun acc c => if c = '/' then [] else acc ++ [c]) []

/-- Python `pathlib.Path(p).suffix`: take the final path component; the
suffix is the part from the last dot, provided that dot is neither the first
nor the last character of the name; otherwise the empty string. -/
def pySuffix (p : String) : String :=
  let name := afterLastSlash p.toList
  match lastDotIdx name with
  | some i => if 0 < i && i < name.length - 1 then String.mk (name.drop i) else ""
  | none => ""

/-- Python `str.lower` (ASCII case folding suffices for the deny-list). -/
def pyLower (s : String) : String := String.mk (s.toList.map Char.toLower)

/-- `BLOCKED_EXTENSIONS` (server.py line 36). -/
def BLOCKED_EXTENSIONS : List String := [".php", ".phtml", ".sh"]

/-- `is_file_allowed` (server.py lines 157-160): the filename's suffix is
lowercased and checked against the deny-list. -/
def is_file_allowed (filename : String) : Bool :=
  !(BLOCKED_EXTENSIONS.contains (pyLower (pySuffix filename)))

/-- An uploaded file as received by the endpoint: its client-supplied
filename and the byte length of its content. -/
structure FileUpload where
  filename : String
  size : Nat
  deriving DecidableEq

/-- Arguments of `POST /api/messages` (server.py lines 202-207).
`ttl_seconds = none` models the form field being absent, in which case
FastAPI supplies the declared default `3600`. -/
structure CreateRequest where
  content : String
  username : String
  ttl_seconds : Option Int
  send_to_discord : Bool
  file : Option FileUpload
  deriving DecidableEq

/-- Outcome of `create_message`: either the updated state, the returned
message and the ordered trace of observable actions, or an HTTP error
carrying the (unchanged) state, status code and detail. -/
inductive CreateResult where
  | ok (st : ServerState) (m : Message) (trace : List Action)
  | error (st : ServerState) (status : Nat) (detail : String)
  deriving DecidableEq

/-- Truthiness of `file and file.filename` (server.py lines 210, 222). -/
def hasRealFile (req : CreateRequest) : Bool :=
  match req.file with
  | some f => f.filename != ""
  | none => false

/-- Body of `create_message` after the extension check has passed
(server.py lines 214-264): compute `expires_at`, write the upload under a
fresh identifier plus the original extension, insert the message, call the
Discord webhook when requested (its outcome `relayOk` is logged and
otherwise ignored), then broadcast `new_message`. -/
def createAccepted (req : CreateRequest) (now : Int) (relayOk : Bool)
    (st : ServerState) (file : Option FileUpload) : CreateResult :=
  let ttl := req.ttl_seconds.getD 3600
  let expires := now + ttl
  match file with
  | some f =>
    let p := "uploads/" ++ toString st.nextId ++ pySuffix f.filename
    let m : Message :=
      { id := st.nextId, content := req.content, username := req.username,
        timestamp := now, ttl_seconds := some ttl, expires_at := some expires,
        file_path := some p, file_name := some f.filename,
        file_size := some f.size }
    let st' : ServerState :=
      { messages := st.messages ++ [m], files := st.files ++ [p],
        nextId := st.nextId + 1 }
    let acts := [Action.writeFile p, Action.persistMessage m]
    let acts := if req.send_to_discord then acts ++ [Action.relay relayOk] else acts
    CreateResult.ok st' m (acts ++ [Action.broadcast (Event.new_message m)])
  | none =>
    let m : Message :=
      { id := st.nextId, content := req.content, username := req.username,
        timestamp := now, ttl_seconds := some ttl, expires_at := some expires,
        file_path := none, file_name := none, file_size := none }
    let st' : ServerState :=
      { messages := st.messages ++ [m], files := st.files,
        nextId := st.nextId + 1 }
    let acts := [Action.persistMessage m]
    let acts := if req.send_to_discord then acts ++ [Action.relay relayOk] else acts
    CreateResult.ok st' m (acts ++ [Action.broadcast (Event.new_message m)])

/-- `create_message` (server.py lines 201-264). If a file with a non-empty
filename is supplied and its extension is deny-listed, the request is
rejected with HTTP 400 before any write; otherwise the accepted path runs. -/
def create_message (req : CreateRequest) (now : Int) (relayOk : Bool)
    (st : ServerState) : CreateResult :=
  match req.file with
  | some f =>
    if f.filename != "" then
      if !is_file_allowed f.filename then
        CreateResult.error st 400 "File type not allowed"
      else
        createAccepted req now relayOk st (some f)
    else
      createAccepted req now relayOk st none
  | none => createAccepted req now relayOk st none

/-- The Mongo filter `expires_at < t` used by the sweep: documents with a
null `expires_at` never match `$lt`. -/
def expiresBefore (m : Message) (t : Int) : Bool :=
  match m.expires_at with
  | some e => e < t
  | none => false

/-- Result of one sweep iteration: the new state, the `deleted_count` of the
bulk delete, and the events broadcast during the iteration. -/
structure SweepResult where
  state : ServerState
  deletedCount : Nat
  events : List Event
  deriving DecidableEq

/-- One iteration of `cleanup_expired_messages` (server.py lines 90-116):
bulk-delete the messages with `expires_at < now`; if any were deleted,
broadcast a `cleanup` event with the count; then query the (already
mutated) collection for expired messages with a file path and unlink
their files. -/
def sweep (st : ServerState) (now : Int) : SweepResult :=
  let remaining := st.messages.filter (fun m => !expiresBefore m now)
  let deletedCount := st.messages.length - remaining.length
  let events := if deletedCount > 0 then [Event.cleanup deletedCount] else []
  let expiredWithFile :=
    remaining.filter (fun m => expiresBefore m now && m.file_path.isSome)
  let files :=
    st.files.filter (fun p => !(expiredWithFile.any (fun m => m.file_path = some p)))
  { state := { messages := remaining, files := files, nextId := st.nextId },
    deletedCount := deletedCount, events := events }

/-- The Mongo liveness filter of `get_messages`:
`expires_at > now` or `expires_at = None`. -/
def liveAt (m : Message) (t : Int) : Bool :=
  match m.expires_at with
  | some e => t < e
  | none => true

/-- Insert a message into a list sorted by ascending `timestamp`. -/
def insertByTime (m : Message) : List Message → List Message
  | [] => [m]
  | x :: xs =>
    if m.timestamp < x.timestamp then m :: x :: xs else x :: insertByTime m xs

/-- Sort messages by ascending `timestamp` (the Mongo `sort("timestamp", 1)`). -/
def sortByTime (l : List Message) : List Message := l.foldr insertByTime []

/-- `get_messages` (server.py lines 266-277): filter the live messages, sort
by `timestamp` ascending, and return at most 1000 of them (`to_list(1000)`).
The handler performs no writes, so the state component is returned intact. -/
def get_messages (st : ServerState) (now : Int) : ServerState × List Message :=
  (st, (sortByTime (st.messages.filter (fun m => liveAt m now))).take 1000)

/-- A websocket connection: an identity and whether `send_text` fails on it. -/
structure Conn where
  id : Nat
  failsSend : Bool
  deriving DecidableEq

/-- `ConnectionManager.disconnect` (server.py lines 70-71): Python's
`list.remove` deletes the first occurrence, and raises `ValueError` when the
element is absent. -/
def disconnect (conns : List Conn) (c : Conn) : Except String (List Conn) :=
  if conns.contains c then Except.ok (conns.erase c)
  else Except.error "ValueError: list.remove(x): x not in list"

/-- `ConnectionManager.broadcast` (server.py lines 76-82), with Python's
`for` semantics made explicit: the iterator keeps an index into the live
list, so removing the current element shifts its successor into the current
slot and the successor is skipped. `fuel` bounds the iteration count; the
index grows by one per step while the list never grows, so
`conns.length` fuel is always enough. Returns the final registry and the
connections that received the message, in delivery order. -/
def broadcastLoop (fuel : Nat) (conns : List Conn) (i : Nat)
    (delivered : List Conn) : List Conn × List Conn :=
  match fuel with
  | 0 => (conns, delivered)
  | fuel + 1 =>
    if h : i < conns.length then
      let c := conns.get ⟨i, h⟩
      if c.failsSend then
        broadcastLoop fuel (conns.erase c) (i + 1) delivered
      else
        broadcastLoop fuel conns (i + 1) (delivered ++ [c])
    else (conns, delivered)

/-- `ConnectionManager.broadcast` entry point. -/
def broadcast (conns : List Conn) : List Conn × List Conn :=
  broadcastLoop conns.length conns 0 []

/-- Whether the extension check of `create_message` accepts the request:
no file, an empty filename, or an allowed extension. -/
def fileOk (req : CreateRequest) : Bool :=
  match req.file with
  | some f => f.filename == "" || is_file_allowed f.filename
  | none => true

/-- Recognize the Discord relay action in a trace. -/
def isRelayAct : Action → Bool
  | Action.relay _ => true
  | _ => false

/-- Recognize the broadcast action in a trace. -/
def isBroadcastAct : Action → Bool
  | Action.broadcast _ => true
  | _ => false

/-- Action trace of a `create_message` outcome (empty on error). -/
def traceOf : CreateResult → List Action
  | CreateResult.ok _ _ tr => tr
  | CreateResult.error _ _ _ => []

/-- Whether `create_message` succeeded. -/
def isOk : CreateResult → Bool
  | CreateResult.ok _ _ _ => true
  | CreateResult.error _ _ _ => false

/-- Resulting server state of a `create_message` outcome. -/
def stateOf : CreateResult → ServerState
  | CreateResult.ok st _ _ => st
  | CreateResult.error st _ _ => st

/-- Returned message of a `create_message` outcome, when successful. -/
def msgOf : CreateResult → Option Message
  | CreateResult.ok _ m _ => some m
  | CreateResult.error _ _ _ => none

/-- Ordering of messages by creation timestamp. -/
def timeLE (a b : Message) : Prop := a.timestamp ≤ b.timestamp

/-- The empty server state. -/
def emptyState : ServerState := { messages := [], files := [], nextId := 0 }

/-- A minimal live message with creation time `i`, used as concrete data. -/
def mkMsg (i : Nat) : Message :=
  { id := i, content := "", username := "", timestamp := (i : Int),
    ttl_seconds := none, expires_at := none, file_path := none,
    file_name := none, file_size := none }

/-- A store holding 1001 live messages with increasing timestamps. -/
def bigState : ServerState :=
  { messages := (List.range 1001).map mkMsg, files := [], nextId := 1001 }

/-- An expired message owning the attachment file `uploads/7.bin`. -/
def expiredFileMsg : Message :=
  { id := 7, content := "c", username := "u", timestamp := 0,
    ttl_seconds := some 5, expires_at := some 5,
    file_path := some "uploads/7.bin", file_name := some "f.bin",
    file_size := some 3 }

/-- A store holding `expiredFileMsg` with its file present on disk. -/
def expiredFileState : ServerState :=
  { messages := [expiredFileMsg], files := ["uploads/7.bin"], nextId := 8 }

/-- A create request with relay requested and no attachment. -/
def relayReq : CreateRequest :=
  { content := "hi", username := "u", ttl_seconds := some 60,
    send_to_discord := true, file := none }

/-- A create request whose attachment is named `x.php`. -/
def phpReq : CreateRequest :=
  { content := "c", username := "u", ttl_seconds := some 60,
    send_to_discord := false, file := some { filename := "x.php", size := 3 } }

end Chat

namespace Chat

theorem mem_insertByTime {a m : Message} {l : List Message} :
    a ∈ insertByTime m l ↔ a = m ∨ a ∈ l := by
  induction l with
  | nil => simp [insertByTime]
  | cons x xs ih =>
    simp only [insertByTime]
    split
    · simp
    · simp [ih]
      tauto

theorem mem_sortByTime {a : Message} {l : List Message} :
    a ∈ sortByTime l ↔ a ∈ l := by
  induction l with
  | nil => simp [sortByTime]
  | cons x xs ih =>
    simp only [sortByTime, List.foldr] at *
    rw [mem_insertByTime, ih]
    simp

theorem pairwise_insertByTime {m : Message} {l : List Message}
    (hl : l.Pairwise timeLE) : (insertByTime m l).Pairwise timeLE := by
  induction l with
  | nil => simp [insertByTime]
  | cons x xs ih =>
    simp only [insertByTime]
    rcases List.pairwise_cons.mp hl with ⟨hx, hxs⟩
    split
    · rename_i hlt
      refine List.pairwise_cons.mpr ⟨?_, hl⟩
      intro b hb
      rcases List.mem_cons.mp hb with hb | hb
      · exact le_of_lt (hb ▸ hlt)
      · exact le_trans (le_of_lt hlt) (hx b hb)
    · rename_i hnlt
      refine List.pairwise_cons.mpr ⟨?_, ih hxs⟩
      intro b hb
      rcases mem_insertByTime.mp hb with hb | hb
      · subst hb
        exact le_of_not_lt hnlt
      · exact hx b hb

theorem pairwise_sortByTime (l : List Message) :
    (sortByTime l).Pairwise timeLE := by
  induction l with
  | nil => simp [sortByTime]
  | cons x xs ih => exact pairwise_insertByTime ih

theorem length_insertByTime (m : Message) (l : List Message) :
    (insertByTime m l).length = l.length + 1 := by
  induction l with
  | nil => simp [insertByTime]
  | cons x xs ih =>
    simp only [insertByTime]
    split
    · simp
    · simp [ih]

theorem length_sortByTime (l : List Message) :
    (sortByTime l).length = l.length := by
  induction l with
  | nil => simp [sortByTime]
  | cons x xs ih =>
    simp only [sortByTime, List.foldr] at *
    rw [length_insertByTime, ih, List.length_cons]

/-- C1: the sweep is claimed to delete the attachment file of every expired
message it removes, in the same cycle. The code bulk-deletes the expired
message records first and only then queries the collection for expired
messages with a file path; that query runs on the already-mutated
collection and returns nothing, so the file is never unlinked. Evaluated at
a store holding one expired message owning `uploads/7.bin`: the sweep
removes the message and reports it, yet the file survives on disk. -/
theorem c1_sweep_never_deletes_attachment :
    sweep expiredFileState 10 =
      { state := { messages := [], files := ["uploads/7.bin"], nextId := 8 },
        deletedCount := 1, events := [Event.cleanup 1] } := by
  decide

/-- C6: broadcast is claimed to deliver the event to every other registered
connection even when one connection's send fails. The code removes the
failed connection from the list while iterating over it by index, so the
connection following the failed one is skipped: with registry
`[c1, c2, c3]` where only `c2` fails, `c3` is registered and healthy yet
never receives the event (the final registry is `[c1, c3]` and only `c1`
was delivered to). -/
theorem c6_broadcast_skips_after_failure :
    broadcast [⟨1, false⟩, ⟨2, true⟩, ⟨3, false⟩] =
        ([⟨1, false⟩, ⟨3, false⟩], [⟨1, false⟩])
    ∧ (⟨3, false⟩ : Conn) ∈ [(⟨1, false⟩ : Conn), ⟨2, true⟩, ⟨3, false⟩]
    ∧ Conn.failsSend ⟨3, false⟩ = false
    ∧ (⟨3, false⟩ : Conn) ∉ (broadcast [⟨1, false⟩, ⟨2, true⟩, ⟨3, false⟩]).2 := by
  decide

/-- C9 counterexample: `disconnect` on a connection that is not registered
is claimed to be a no-op that raises no error; but Python's `list.remove`
raises `ValueError` when the element is absent, so disconnecting from the
empty registry errors. -/
theorem c9_unsubscribe_absent_raises :
    disconnect [] ⟨0, false⟩ =
      Except.error "ValueError: list.remove(x): x not in list" := by
  rfl

/-- C9 amended: calling `disconnect(c)` when `c` is not registered raises a
`ValueError` (it is not a silent no-op); the error is raised before any
mutation, so the registry contents are unchanged by the failed call. -/
theorem c9_unsubscribe_absent_errors (conns : List Conn) (c : Conn)
    (h : conns.contains c = false) :
    disconnect conns c =
      Except.error "ValueError: list.remove(x): x not in list" := by
  unfold disconnect
  rw [h]
  simp

/-- C9 witness: the amended theorem applied to the empty registry. -/
theorem c9_unsubscribe_absent_errors_witness :
    (List.contains [] (⟨0, false⟩ : Conn) = false)
    ∧ disconnect [] ⟨0, false⟩ =
        Except.error "ValueError: list.remove(x): x not in list" :=
  ⟨by decide, c9_unsubscribe_absent_errors [] ⟨0, false⟩ (by decide)⟩

/-- C2 counterexample: a message created with the `ttl_seconds` form field
absent does not get `expires_at = None`; FastAPI substitutes the declared
default 3600, so the stored message has `ttl_seconds = 3600`,
`expires_at = created_at + 3600`, and it matches the Expiration Sweeper's
deletion predicate at time 3601. -/
theorem c2_no_ttl_still_expires :
    (msgOf (create_message
        { content := "hi", username := "u", ttl_seconds := none,
          send_to_discord := false, file := none } 0 false emptyState)).map
      (fun m => (m.ttl_seconds, m.expires_at, expiresBefore m 3601))
      = some (some 3600, some 3600, true) := by
  decide

/-- C2 amended: a create request with no `ttl_seconds` supplied defaults to
3600 seconds: the stored message has `ttl_seconds = 3600` and
`expires_at = created_at + 3600` (never `None`), and once past that time it
is removed by any Expiration Sweeper run, not only by a Full-Reset sweep. -/
theorem c2_default_ttl (st : ServerState) (now : Int)
    (content username : String) (ok : Bool) :
    ∃ m tr, create_message
        { content := content, username := username, ttl_seconds := none,
          send_to_discord := false, file := none } now ok st =
        CreateResult.ok
          { messages := st.messages ++ [m], files := st.files,
            nextId := st.nextId + 1 } m tr
      ∧ m.ttl_seconds = some 3600
      ∧ m.expires_at = some (now + 3600)
      ∧ ∀ st2 t, now + 3600 < t → m ∉ (sweep st2 t).state.messages := by
  refine ⟨{ id := st.nextId, content := content, username := username,
            timestamp := now, ttl_seconds := some 3600,
            expires_at := some (now + 3600), file_path := none,
            file_name := none, file_size := none }, _, rfl, rfl, rfl, ?_⟩
  intro st2 t ht hmem
  have h2 := (List.mem_filter.mp hmem).2
  simp [expiresBefore] at h2
  exact absurd ht (by simpa using h2)

/-- C2 witness: the amended theorem instantiated at the empty store, time 0,
content `hi` and author `u`. -/
theorem c2_default_ttl_witness :
    ∃ m tr, create_message
        { content := "hi", username := "u", ttl_seconds := none,
          send_to_discord := false, file := none } 0 false emptyState =
        CreateResult.ok
          { messages := emptyState.messages ++ [m], files := emptyState.files,
            nextId := emptyState.nextId + 1 } m tr
      ∧ m.ttl_seconds = some 3600
      ∧ m.expires_at = some (0 + 3600)
      ∧ ∀ st2 t, 0 + 3600 < t → m ∉ (sweep st2 t).state.messages :=
  c2_default_ttl emptyState 0 "hi" "u" false

/-- C3: a create request whose attachment filename has a deny-listed
extension is rejected with HTTP 400 (`File type not allowed`) and the
returned state is exactly the input state: no message document and no
attachment file is written. -/
theorem c3_denylisted_rejected_before_write (req : CreateRequest)
    (st : ServerState) (now : Int) (ok : Bool) (f : FileUpload)
    (hf : req.file = some f) (hne : f.filename ≠ "")
    (hden : BLOCKED_EXTENSIONS.contains (pyLower (pySuffix f.filename)) = true) :
    create_message req now ok st =
      CreateResult.error st 400 "File type not allowed" := by
  unfold create_message
  rw [hf]
  simp [hne, is_file_allowed, hden]
  intro hc
  exact absurd (by simpa using hden) hc

/-- C3 witness: uploading `x.php` against the empty store is rejected with
a 400 and leaves the store untouched. -/
theorem c3_denylisted_rejected_before_write_witness :
    phpReq.file = some { filename := "x.php", size := 3 }
    ∧ ("x.php" : String) ≠ ""
    ∧ BLOCKED_EXTENSIONS.contains (pyLower (pySuffix "x.php")) = true
    ∧ create_message phpReq 0 false emptyState =
        CreateResult.error emptyState 400 "File type not allowed" :=
  ⟨rfl, by decide, by decide,
    c3_denylisted_rejected_before_write phpReq emptyState 0 false
      { filename := "x.php", size := 3 } rfl (by decide) (by decide)⟩

/-- C4: sweeping twice in succession with no new expirations between the
calls deletes messages only on the first call: the second call deletes
zero messages, broadcasts nothing, and leaves the collection unchanged;
and in general a sweep broadcasts a `cleanup` event exactly when its
deleted count is positive. -/
theorem c4_sweep_idempotent (st : ServerState) (t1 t2 : Int)
    (h : ∀ m ∈ (sweep st t1).state.messages, expiresBefore m t2 = false) :
    (sweep (sweep st t1).state t2).deletedCount = 0
    ∧ (sweep (sweep st t1).state t2).events = []
    ∧ (sweep (sweep st t1).state t2).state.messages = (sweep st t1).state.messages
    ∧ ∀ st' t, (sweep st' t).events ≠ [] ↔ 0 < (sweep st' t).deletedCount := by
  have hfix : ((sweep st t1).state.messages.filter
      (fun m => !expiresBefore m t2)) = (sweep st t1).state.messages := by
    apply List.filter_eq_self.mpr
    intro a ha
    simp [h a ha]
  refine ⟨?_, ?_, ?_, ?_⟩
  · show (sweep st t1).state.messages.length - _ = 0
    rw [hfix]
    omega
  · show (if _ > 0 then _ else []) = []
    rw [if_neg]
    rw [hfix]
    omega
  · show (sweep st t1).state.messages.filter _ = _
    exact hfix
  · intro st' t
    simp only [sweep]
    split
    · rename_i hpos
      simpa using hpos
    · rename_i hpos
      simp
      omega

/-- C4 witness: the idempotence theorem applied to a store with one expired
message, swept twice at time 10; the first sweep deletes one message. -/
theorem c4_sweep_idempotent_witness :
    (∀ m ∈ (sweep expiredFileState 10).state.messages,
        expiresBefore m 10 = false)
    ∧ (sweep expiredFileState 10).deletedCount = 1
    ∧ ((sweep (sweep expiredFileState 10).state 10).deletedCount = 0
       ∧ (sweep (sweep expiredFileState 10).state 10).events = []
       ∧ (sweep (sweep expiredFileState 10).state 10).state.messages =
           (sweep expiredFileState 10).state.messages
       ∧ ∀ st' t, (sweep st' t).events ≠ [] ↔ 0 < (sweep st' t).deletedCount) :=
  ⟨by decide, by decide, c4_sweep_idempotent expiredFileState 10 10 (by decide)⟩

set_option maxRecDepth 1000000 in
/-- C5 counterexample: with 1001 live messages in the store, `get_messages`
returns only the first 1000 (`to_list(1000)`), so a live message is missing
from the result even though retrieval mutates nothing: `mkMsg 1000` is in
the store and live at time 0, yet absent from the returned list. -/
theorem c5_cap_drops_live_message :
    bigState.messages.contains (mkMsg 1000) = true
    ∧ liveAt (mkMsg 1000) 0 = true
    ∧ (get_messages bigState 0).1 = bigState
    ∧ (get_messages bigState 0).2.contains (mkMsg 1000) = false := by
  refine ⟨by decide, by decide, rfl, by decide⟩

/-- C5 amended: retrieval performs no mutation and returns live messages in
`created_at` ascending order, but capped at the first 1000: every returned
message is live and from the store, the result is sorted by timestamp and
has length at most 1000, and whenever at most 1000 messages are live the
result contains every live message of the store. -/
theorem c5_list_live (st : ServerState) (now : Int) :
    (get_messages st now).1 = st
    ∧ (∀ m ∈ (get_messages st now).2, liveAt m now = true ∧ m ∈ st.messages)
    ∧ (get_messages st now).2.Pairwise timeLE
    ∧ (get_messages st now).2.length ≤ 1000
    ∧ ((st.messages.filter (fun m => liveAt m now)).length ≤ 1000 →
        ∀ m ∈ st.messages, liveAt m now = true →
          m ∈ (get_messages st now).2) := by
  refine ⟨rfl, ?_, ?_, ?_, ?_⟩
  · intro m hm
    have hm2 : m ∈ sortByTime (st.messages.filter (fun x => liveAt x now)) :=
      List.mem_of_mem_take hm
    have hmf := List.mem_filter.mp (mem_sortByTime.mp hm2)
    exact ⟨hmf.2, hmf.1⟩
  · exact List.Pairwise.sublist (List.take_sublist _ _) (pairwise_sortByTime _)
  · show ((sortByTime (st.messages.filter fun m => liveAt m now)).take 1000).length ≤ 1000
    rw [List.length_take]
    exact min_le_left _ _
  · intro hlen m hm hlive
    have hmem : m ∈ sortByTime (st.messages.filter (fun x => liveAt x now)) :=
      mem_sortByTime.mpr (List.mem_filter.mpr ⟨hm, hlive⟩)
    show m ∈ (sortByTime (st.messages.filter fun x => liveAt x now)).take 1000
    rw [List.take_of_length_le (by rw [length_sortByTime]; exact hlen)]
    exact hmem

/-- C5 witness: the amended retrieval theorem instantiated at the
1001-message store and time 0. -/
theorem c5_list_live_witness :
    (get_messages bigState 0).1 = bigState
    ∧ (∀ m ∈ (get_messages bigState 0).2, liveAt m 0 = true ∧ m ∈ bigState.messages)
    ∧ (get_messages bigState 0).2.Pairwise timeLE
    ∧ (get_messages bigState 0).2.length ≤ 1000
    ∧ ((bigState.messages.filter (fun m => liveAt m 0)).length ≤ 1000 →
        ∀ m ∈ bigState.messages, liveAt m 0 = true →
          m ∈ (get_messages bigState 0).2) :=
  c5_list_live bigState 0

/-- C7 counterexample: for a successful create with the relay requested,
the relay action appears at index 1 of the action trace and the
`new_message` broadcast at index 2 — the relay is invoked after persistence
but before the broadcast, not after it. -/
theorem c7_relay_before_broadcast :
    (traceOf (create_message relayReq 0 true emptyState)).findIdx? isRelayAct
        = some 1
    ∧ (traceOf (create_message relayReq 0 true emptyState)).findIdx?
          isBroadcastAct = some 2
    ∧ isOk (create_message relayReq 0 true emptyState) = true := by
  decide

/-- C7 amended: when the relay is requested and the attachment check
passes, ingestion persists the message, then invokes the relay, then
broadcasts `new_message`; the relay outcome is swallowed — the resulting
state, returned message, and the rest of the trace are identical whether
the relay succeeds or fails. -/
theorem c7_relay_between_persist_and_broadcast (req : CreateRequest)
    (st : ServerState) (now : Int) (hd : req.send_to_discord = true)
    (hok : fileOk req = true) :
    ∃ st' m pre, ∀ ok, create_message req now ok st =
      CreateResult.ok st' m
        (pre ++ [Action.persistMessage m, Action.relay ok,
                 Action.broadcast (Event.new_message m)]) := by
  cases hfile : req.file with
  | none =>
    refine ⟨⟨st.messages ++
        [⟨st.nextId, req.content, req.username, now,
          some (req.ttl_seconds.getD 3600),
          some (now + req.ttl_seconds.getD 3600), none, none, none⟩],
        st.files, st.nextId + 1⟩,
      ⟨st.nextId, req.content, req.username, now,
        some (req.ttl_seconds.getD 3600),
        some (now + req.ttl_seconds.getD 3600), none, none, none⟩,
      [], fun ok => ?_⟩
    unfold create_message createAccepted
    rw [hfile, hd]
    simp
  | some f =>
    by_cases hemp : f.filename = ""
    · refine ⟨⟨st.messages ++
          [⟨st.nextId, req.content, req.username, now,
            some (req.ttl_seconds.getD 3600),
            some (now + req.ttl_seconds.getD 3600), none, none, none⟩],
          st.files, st.nextId + 1⟩,
        ⟨st.nextId, req.content, req.username, now,
          some (req.ttl_seconds.getD 3600),
          some (now + req.ttl_seconds.getD 3600), none, none, none⟩,
        [], fun ok => ?_⟩
      unfold create_message createAccepted
      rw [hfile, hd]
      simp [hemp]
    · have hall : is_file_allowed f.filename = true := by
        unfold fileOk at hok
        rw [hfile] at hok
        simpa [hemp] using hok
      refine ⟨⟨st.messages ++
          [⟨st.nextId, req.content, req.username, now,
            some (req.ttl_seconds.getD 3600),
            some (now + req.ttl_seconds.getD 3600),
            some ("uploads/" ++ toString st.nextId ++ pySuffix f.filename),
            some f.filename, some f.size⟩],
          st.files ++ ["uploads/" ++ toString st.nextId ++ pySuffix f.filename],
          st.nextId + 1⟩,
        ⟨st.nextId, req.content, req.username, now,
          some (req.ttl_seconds.getD 3600),
          some (now + req.ttl_seconds.getD 3600),
          some ("uploads/" ++ toString st.nextId ++ pySuffix f.filename),
          some f.filename, some f.size⟩,
        [Action.writeFile ("uploads/" ++ toString st.nextId ++ pySuffix f.filename)],
        fun ok => ?_⟩
      unfold create_message createAccepted
      rw [hfile, hd]
      simp [hemp, hall]

/-- C7 witness: the amended theorem applied to a relay-requesting request
with no attachment against the empty store. -/
theorem c7_relay_between_persist_and_broadcast_witness :
    relayReq.send_to_discord = true
    ∧ fileOk relayReq = true
    ∧ ∃ st' m pre, ∀ ok, create_message relayReq 0 ok emptyState =
        CreateResult.ok st' m
          (pre ++ [Action.persistMessage m, Action.relay ok,
                   Action.broadcast (Event.new_message m)]) :=
  ⟨rfl, rfl, c7_relay_between_persist_and_broadcast relayReq emptyState 0 rfl rfl⟩

/-- C8 counterexample: a create request with an empty author and a negative
`ttl_seconds` of -5 is not rejected: it succeeds and persists a message
(the store grows from 0 to 1 documents), contradicting the claim that such
requests fail with a `ValidationError` before any write. -/
theorem c8_no_validation_on_author_or_ttl :
    isOk (create_message
        { content := "x", username := "", ttl_seconds := some (-5),
          send_to_discord := false, file := none } 0 false emptyState) = true
    ∧ (stateOf (create_message
        { content := "x", username := "", ttl_seconds := some (-5),
          send_to_discord := false, file := none } 0 false
        emptyState)).messages.length = 1 := by
  decide

/-- C8 amended: the handler validates neither the author nor the TTL sign:
for every author string (including the empty one) and every integer
`ttl_seconds` (including zero and negatives), the request succeeds and the
message is persisted with `expires_at = created_at + ttl_seconds` (possibly
already in the past). Only a request missing the author form field entirely
is rejected, by FastAPI's form parsing, outside this code. -/
theorem c8_accepts_any_author_and_ttl (st : ServerState) (now : Int)
    (content username : String) (ttl : Int) (ok : Bool) :
    ∃ m tr, create_message
        { content := content, username := username, ttl_seconds := some ttl,
          send_to_discord := false, file := none } now ok st =
        CreateResult.ok
          { messages := st.messages ++ [m], files := st.files,
            nextId := st.nextId + 1 } m tr
      ∧ m.username = username
      ∧ m.ttl_seconds = some ttl
      ∧ m.expires_at = some (now + ttl) :=
  ⟨⟨st.nextId, content, username, now, some ttl, some (now + ttl),
    none, none, none⟩, _, rfl, rfl, rfl, rfl⟩

/-- C10: the deny-list check is case-insensitive. The decision of
`is_file_allowed` depends only on the lowercased suffix of the filename,
and the uppercase variants `x.PHP`, `x.Phtml`, `x.SH` are rejected exactly
like their lowercase counterparts. -/
theorem c10_denylist_case_insensitive (f g : String)
    (h : pyLower (pySuffix f) = pyLower (pySuffix g)) :
    is_file_allowed f = is_file_allowed g
    ∧ is_file_allowed "x.PHP" = false
    ∧ is_file_allowed "x.Phtml" = false
    ∧ is_file_allowed "x.SH" = false
    ∧ is_file_allowed "x.PHP" = is_file_allowed "x.php"
    ∧ is_file_allowed "x.Phtml" = is_file_allowed "x.phtml"
    ∧ is_file_allowed "x.SH" = is_file_allowed "x.sh" := by
  refine ⟨?_, by decide, by decide, by decide, by decide, by decide, by decide⟩
  unfold is_file_allowed
  rw [h]

/-- C10 witness: the case-insensitivity theorem applied to `x.PHP` and
`x.php`, whose lowercased suffixes agree. -/
theorem c10_denylist_case_insensitive_witness :
    pyLower (pySuffix "x.PHP") = pyLower (pySuffix "x.php")
    ∧ (is_file_allowed "x.PHP" = is_file_allowed "x.php"
       ∧ is_file_allowed "x.PHP" = false
       ∧ is_file_allowed "x.Phtml" = false
       ∧ is_file_allowed "x.SH" = false
       ∧ is_file_allowed "x.PHP" = is_file_allowed "x.php"
       ∧ is_file_allowed "x.Phtml" = is_file_allowed "x.phtml"
       ∧ is_file_allowed "x.SH" = is_file_allowed "x.sh") :=
  ⟨by decide, c10_denylist_case_insensitive "x.PHP" "x.php" (by decide)⟩

end Chat
